import Mathlib

/-!
Verification of the ricq message-semantics and session-protocol core.

We shallowly embed the code of `src/ricq/src/client/api/mod.rs` and
`src/ricq-core/src/msg/elem/mod.rs` in Lean.  Network interaction is
modelled by passing the outcomes of the collaborator calls (transport
results, decode results) explicitly as arguments, and each operation also
returns a transcript of the calls it issued, so that claims about "no
network call happens" are statable.  A Rust panic (an `unwrap` of `None`)
is modelled by an `Option` layer: `none` means the operation panicked.
Machine integers that the code only compares for equality are modelled as
`Int`; byte strings as `List Nat`.
-/

namespace Ricq

/-- The error type `RQError`, restricted to the constructors used in the
embedded code: `RQError::Other(String)` and `RQError::EmptyField(&str)`. -/
inductive RQError where
  | Other (msg : String)
  | EmptyField (field : String)
deriving DecidableEq, Repr

/-! ## Element classifier (`ricq-core/src/msg/elem/mod.rs`) -/

/-- Raw bytes of a nested protobuf payload. -/
abbrev Bytes := List Nat

/-- The protobuf `Text` element: `attr6_buf` is an optional bytes field
whose prost accessor defaults to the empty buffer. -/
structure TextElem where
  str : Option String
  attr6_buf : Option Bytes
deriving DecidableEq, Repr

/-- The protobuf `Face` element. -/
structure FaceElem where
  index : Option Int
deriving DecidableEq, Repr

/-- The protobuf `CommonElem` element: `service_type` is an optional int32
whose accessor defaults to 0, `pb_elem` an optional bytes field whose
accessor defaults to the empty buffer. -/
structure CommonElem where
  service_type : Option Int
  pb_elem : Option Bytes
deriving DecidableEq, Repr

/-- The protobuf `MarketFace` element.  Modelled from the spec: the
element carries a display caption (`face_name`), which is the only field
the classifier inspects. -/
structure MarketFaceElem where
  face_name : String
deriving DecidableEq, Repr

/-- The protobuf `LightApp` element (payload opaque to the classifier). -/
structure LightAppElem where
  data : Bytes
deriving DecidableEq, Repr

/-- The protobuf `RichMsg` element (payload opaque to the classifier). -/
structure RichMsgElem where
  template1 : Bytes
deriving DecidableEq, Repr

/-- The protobuf `VideoFile` element (payload opaque to the classifier). -/
structure VideoFileElem where
  data : Bytes
deriving DecidableEq, Repr

/-- The protobuf `NotOnlineImage` element (friend image). -/
structure NotOnlineImageElem where
  data : Bytes
deriving DecidableEq, Repr

/-- The protobuf `CustomFace` element (group image). -/
structure CustomFaceElem where
  data : Bytes
deriving DecidableEq, Repr

/-- The protobuf oneof `msg::elem::Elem`.  The constructors matched by the
classifier are explicit; every other oneof arm (matched by `_` in the
code) is collapsed into `OtherKind`, tagged so distinct raw payloads stay
distinct. -/
inductive Elem where
  | Text (t : TextElem)
  | Face (f : FaceElem)
  | CommonElem (c : CommonElem)
  | MarketFace (m : MarketFaceElem)
  | LightApp (l : LightAppElem)
  | RichMsg (r : RichMsgElem)
  | VideoFile (v : VideoFileElem)
  | NotOnlineImage (n : NotOnlineImageElem)
  | CustomFace (c : CustomFaceElem)
  | OtherKind (tag : Nat) (payload : Bytes)
deriving DecidableEq, Repr

/-- The nested flash-image descriptor `MsgElemInfoServtype3`: two optional
sub-descriptors, a group picture and a friend (c2c) picture.  The
sub-descriptor payloads are opaque to the classifier. -/
structure MsgElemInfoServtype3 where
  flash_troop_pic : Option Bytes
  flash_c2c_pic : Option Bytes
deriving DecidableEq, Repr

/-- The nested extended-face descriptor `MsgElemInfoServtype33`. -/
structure MsgElemInfoServtype33 where
  index : Option Int
deriving DecidableEq, Repr

/-- Modelled from the spec: the typed `At` (mention) wrapper produced by
`at::At::from(text_elem)` (file `at.rs` is not under `src/`); it keeps
the fields of the text element it came from. -/
structure At where
  src : TextElem
deriving DecidableEq, Repr

/-- Modelled from the spec: the typed `Text` wrapper produced by
`text::Text::from(text_elem)` (file `text.rs` is not under `src/`). -/
structure Text where
  content : String
deriving DecidableEq, Repr

/-- Modelled from the spec: the typed `Face` wrapper; it can be built from
a plain face element or from a decoded `MsgElemInfoServtype33` descriptor
(file `face.rs` is not under `src/`). -/
structure Face where
  index : Int
deriving DecidableEq, Repr

/-- Modelled from the spec: the typed market-face wrapper produced by
`MarketFace::from(elem)` (file `market_face.rs` is not under `src/`); the
display caption is preserved as `name`, which is what the classifier
matches on. -/
structure MarketFace where
  name : String
deriving DecidableEq, Repr

/-- Modelled from the spec: `Dice::from(market_face)`. -/
structure Dice where
  face : MarketFace
deriving DecidableEq, Repr

/-- Modelled from the spec: `FingerGuessing::from(market_face)`. -/
structure FingerGuessing where
  face : MarketFace
deriving DecidableEq, Repr

/-- Modelled from the spec: the typed group-image wrapper; built either
from a flash troop-picture sub-descriptor or from a `CustomFace` element
(file `group_image.rs` is not under `src/`). -/
structure GroupImage where
  raw : Bytes
deriving DecidableEq, Repr

/-- Modelled from the spec: the typed friend-image wrapper; built either
from a flash c2c-picture sub-descriptor or from a `NotOnlineImage`
element (file `friend_image.rs` is not under `src/`). -/
structure FriendImage where
  raw : Bytes
deriving DecidableEq, Repr

/-- Modelled from the spec: the flash (self-destructing) image variant
wraps either a group image or a friend image (file `flash_image.rs` is
not under `src/`); `GroupImage::flash()` / `FriendImage::flash()` build
the respective case. -/
inductive FlashImage where
  | group (i : GroupImage)
  | friend (i : FriendImage)
deriving DecidableEq, Repr

/-- Modelled from the spec: typed light-app wrapper. -/
structure LightApp where
  content : Bytes
deriving DecidableEq, Repr

/-- Modelled from the spec: typed rich-message wrapper. -/
structure RichMsg where
  template1 : Bytes
deriving DecidableEq, Repr

/-- Modelled from the spec: typed video-file wrapper. -/
structure VideoFile where
  data : Bytes
deriving DecidableEq, Repr

/-- The classified message-element model `RQElem`: a closed set of typed
variants plus the lossless passthrough variant `Other` holding the
original element. -/
inductive RQElem where
  | At (a : At)
  | Text (t : Text)
  | Face (f : Face)
  | MarketFace (m : MarketFace)
  | Dice (d : Dice)
  | FingerGuessing (g : FingerGuessing)
  | LightApp (l : LightApp)
  | RichMsg (r : RichMsg)
  | FriendImage (i : FriendImage)
  | GroupImage (i : GroupImage)
  | FlashImage (i : FlashImage)
  | VideoFile (v : VideoFile)
  | Other (e : Elem)
deriving DecidableEq, Repr

/-- Modelled from the spec: `at::At::from`. -/
def atFrom (t : TextElem) : At := ⟨t⟩

/-- Modelled from the spec: `text::Text::from`. -/
def textFrom (t : TextElem) : Text := ⟨t.str.getD ""⟩

/-- Modelled from the spec: `face::Face::from` on a plain face element. -/
def faceFromElem (f : FaceElem) : Face := ⟨f.index.getD 0⟩

/-- Modelled from the spec: `face::Face::from` on a decoded
`MsgElemInfoServtype33` descriptor. -/
def faceFromServtype33 (f : MsgElemInfoServtype33) : Face := ⟨f.index.getD 0⟩

/-- Modelled from the spec: `MarketFace::from`, preserving the display
caption. -/
def marketFaceFrom (m : MarketFaceElem) : MarketFace := ⟨m.face_name⟩

/-- Modelled from the spec: `Dice::from`. -/
def diceFrom (m : MarketFace) : Dice := ⟨m⟩

/-- Modelled from the spec: `FingerGuessing::from`. -/
def fingerGuessingFrom (m : MarketFace) : FingerGuessing := ⟨m⟩

/-- Modelled from the spec: `GroupImage::from` on a flash troop-picture
sub-descriptor. -/
def groupImageFromTroopPic (p : Bytes) : GroupImage := ⟨p⟩

/-- Modelled from the spec: `FriendImage::from` on a flash c2c-picture
sub-descriptor. -/
def friendImageFromC2cPic (p : Bytes) : FriendImage := ⟨p⟩

/-- Modelled from the spec: `GroupImage::from` on a `CustomFace` element. -/
def groupImageFromCustomFace (c : CustomFaceElem) : GroupImage := ⟨c.data⟩

/-- Modelled from the spec: `FriendImage::from` on a `NotOnlineImage`
element. -/
def friendImageFromNotOnlineImage (n : NotOnlineImageElem) : FriendImage := ⟨n.data⟩

/-- The element classifier `impl From<msg::elem::Elem> for RQElem`
(`ricq-core/src/msg/elem/mod.rs`, lines 54-109).  The two nested protobuf
decoders (`MsgElemInfoServtype3::decode`, `MsgElemInfoServtype33::decode`
— prost-generated, external to the repository) are passed as parameters:
`none` models a decode error. -/
def classify (decode3 : Bytes → Option MsgElemInfoServtype3)
    (decode33 : Bytes → Option MsgElemInfoServtype33) (elem : Elem) : RQElem :=
  match elem with
  | .Text t =>
      if (t.attr6_buf.getD []) ≠ [] then .At (atFrom t) else .Text (textFrom t)
  | .Face f => .Face (faceFromElem f)
  | .CommonElem c =>
      let st := c.service_type.getD 0
      if st = 3 then
        match decode3 (c.pb_elem.getD []) with
        | some flash =>
          match flash.flash_troop_pic with
          | some i => .FlashImage (.group (groupImageFromTroopPic i))
          | none =>
            match flash.flash_c2c_pic with
            | some i => .FlashImage (.friend (friendImageFromC2cPic i))
            | none => .Other elem
        | none => .Other elem
      else if st = 33 then
        match decode33 (c.pb_elem.getD []) with
        | some newFace => .Face (faceFromServtype33 newFace)
        | none => .Other elem
      else .Other elem
  | .MarketFace m =>
      let face := marketFaceFrom m
      if face.name = "[骰子]" ∨ face.name = "[随机骰子]" then .Dice (diceFrom face)
      else if face.name = "[猜拳]" then .FingerGuessing (fingerGuessingFrom face)
      else .MarketFace face
  | .LightApp l => .LightApp ⟨l.data⟩
  | .RichMsg r => .RichMsg ⟨r.template1⟩
  | .VideoFile v => .VideoFile ⟨v.data⟩
  | .NotOnlineImage n => .FriendImage (friendImageFromNotOnlineImage n)
  | .CustomFace c => .GroupImage (groupImageFromCustomFace c)
  | .OtherKind _ _ => .Other elem

/-! ## Display helper `fmt_extract_attr` (`ricq-core/src/msg/elem/mod.rs`, lines 129-144)

Rust string search is embedded on `List Char`.  `matchIdxs pat s` lists
every index at which `pat` occurs in `s`; `split_once` takes the first
occurrence, `rsplit_once` the last. -/

/-- All indices `i ≤ s.length` at which `pat` occurs in `s` (ascending). -/
def matchIdxs (pat s : List Char) : List Nat :=
  (List.range (s.length + 1)).filter (fun i => decide (pat <+: s.drop i))

/-- Rust `str::split_once`: split at the first occurrence of `pat`,
returning the parts before and after it. -/
def splitOnce (pat s : List Char) : Option (List Char × List Char) :=
  match matchIdxs pat s with
  | [] => none
  | i :: _ => some (s.take i, s.drop (i + pat.length))

/-- Rust `str::rsplit_once`: split at the last occurrence of `pat`,
returning the parts before and after it. -/
def rsplitOnce (pat s : List Char) : Option (List Char × List Char) :=
  match (matchIdxs pat s).getLast? with
  | none => none
  | some i => some (s.take i, s.drop (i + pat.length))

/-- `fmt_extract_attr`: locate the last occurrence of `begMark` in `i`,
then the first occurrence of `endMark` after it; if both are found, write
a space followed by `name='value'` to the formatter, otherwise write
nothing.  The return value is the string appended to the formatter. -/
def fmt_extract_attr (i name begMark endMark : String) : String :=
  match (rsplitOnce begMark.data i.data).bind
      (fun v => (splitOnce endMark.data v.2).map (fun w => w.1)) with
  | some v => " " ++ name ++ "='" ++ String.mk v ++ "'"
  | none => ""

/-! ## Client session core (`ricq/src/client/api/mod.rs`) -/

/-- The custom-status payload: only the wording is inspected by the
embedded code. -/
structure CustomStatus where
  wording : String
deriving DecidableEq, Repr

/-- The `Status` argument of `update_online_status`. -/
structure Status where
  online_status : Int
  ext_online_status : Int
  custom_status : Option CustomStatus
deriving DecidableEq, Repr

/-- `update_online_status` (lines 28-45): validate the custom-status
wording, then build and send the status packet.  The transport outcome of
`send_and_wait` is passed as `net`; the second component of the result is
the number of network calls issued. -/
def update_online_status (status : Status) (net : Except RQError Unit) :
    Except RQError Unit × Nat :=
  match status.custom_status with
  | some cs =>
      if cs.wording = "" ∨ cs.wording.data.length > 4 then
        (.error (.Other "invalid wording length"), 0)
      else
        match net with
        | .error e => (.error e, 1)
        | .ok _ => (.ok (), 1)
  | none =>
      match net with
      | .error e => (.error e, 1)
      | .ok _ => (.ok (), 1)

/-- `translate` (lines 88-109): send the batch request, decode the
response, and require exactly one translation per input string.  `resp`
is the combined outcome of `send_and_wait` plus
`decode_translate_response`. -/
def translate (src_text_list : List String) (resp : Except RQError (List String)) :
    Except RQError (List String) :=
  match resp with
  | .error e => .error e
  | .ok translations =>
      if translations.length ≠ src_text_list.length then
        .error (.Other "translate length error")
      else .ok translations

/-! ### Incremental sync loop -/

/-- The protobuf message head `pb::msg::MessageHead`: the fields read by
the sync loop, each optional with a prost accessor defaulting to 0. -/
structure MessageHead where
  from_uin : Option Int
  to_uin : Option Int
  msg_type : Option Int
  msg_seq : Option Int
  msg_uid : Option Int
deriving DecidableEq, Repr

/-- The protobuf message `pb::msg::Message`: the sync loop only touches
the (optional) head; the rest of the message is carried opaquely. -/
structure Message where
  head : Option MessageHead
  body : Bytes
deriving DecidableEq, Repr

/-- The acknowledgment item `pb::MessageItem` built by the sync loop;
fields not set there keep the protobuf default 0. -/
structure MessageItem where
  from_uin : Int
  to_uin : Int
  msg_type : Int
  msg_seq : Int
  msg_uid : Int
deriving DecidableEq, Repr

/-- The decoded sync page `MessageSyncResponse`: the fields read by
`sync_all_message`. -/
structure MessageSyncResponse where
  msgs : List Message
  msg_rsp_type : Int
  sync_cookie : Option Bytes
  pub_account_cookie : Option Bytes
  sync_flag : Int
deriving DecidableEq, Repr

/-- The engine signature state touched by the sync loop: the two cursors,
plus every other signature field collapsed into `other` (an arbitrary
type), so frame conditions are statable. -/
structure Sig (α : Type) where
  sync_cookie : Bytes
  pub_account_cookie : Bytes
  other : α
deriving DecidableEq, Repr

/-- The environment of one loop iteration: the outcome of the
`sync_message` call (`none` = transport or decode failure) and the
outcome of the `delete_message` acknowledgment call. -/
structure PageOutcome where
  sync : Option MessageSyncResponse
  deleteOk : Bool
deriving DecidableEq, Repr

/-- The item construction inside `delete_message(...)` (lines 216-229):
each message's head is `unwrap`ped; a message with an absent head makes
the whole construction panic (`none`). -/
def buildDeleteItems : List Message → Option (List MessageItem)
  | [] => some []
  | m :: rest =>
    match m.head with
    | none => none
    | some h =>
        (buildDeleteItems rest).map (fun items =>
          { from_uin := h.from_uin.getD 0
            to_uin := h.to_uin.getD 0
            msg_type := h.msg_type.getD 0
            msg_seq := h.msg_seq.getD 0
            msg_uid := h.msg_uid.getD 0 } :: items)

/-- The cursor-state mutation of `sync_all_message` (lines 236-259),
keyed by the page's `msg_rsp_type`. -/
def updateCursor {α : Type} (rspType : Int) (syncCookie pubAccountCookie : Option Bytes)
    (sig : Sig α) : Sig α :=
  if rspType = 0 then
    { sig with
        sync_cookie := syncCookie.getD sig.sync_cookie
        pub_account_cookie := pubAccountCookie.getD sig.pub_account_cookie }
  else if rspType = 1 then
    { sig with sync_cookie := syncCookie.getD sig.sync_cookie }
  else if rspType = 2 then
    { sig with pub_account_cookie := pubAccountCookie.getD sig.pub_account_cookie }
  else sig

/-- The sync-stop flag `SYNC_STOP`. -/
def SYNC_STOP : Int := 2

/-- The loop body of `sync_all_message` (lines 206-265), consuming one
`PageOutcome` per iteration.  An exhausted outcome list behaves like a
transport failure (the loop can only run as many iterations as the
environment provides).  The result is `none` when the code panics, and
otherwise the accumulated messages with the final signature state. -/
def syncAllLoop {α : Type} (pages : List PageOutcome) (acc : List Message)
    (sig : Sig α) : Option (List Message × Sig α) :=
  match pages with
  | [] => some (acc, sig)
  | page :: rest =>
    match page.sync with
    | none => some (acc, sig)
    | some resp =>
      match buildDeleteItems resp.msgs with
      | none => none
      | some _ =>
        if page.deleteOk then
          let sig1 := updateCursor resp.msg_rsp_type resp.sync_cookie
            resp.pub_account_cookie sig
          let acc1 := acc ++ resp.msgs
          if resp.sync_flag = SYNC_STOP then some (acc1, sig1)
          else syncAllLoop rest acc1 sig1
        else some (acc, sig)

/-- `sync_all_message` (lines 199-267): run the loop from an empty
accumulator; every exit of the loop returns `Ok(msgs)` (the single
`Ok` at line 266), so the `RQResult` layer is always a success.  `none`
models a panic. -/
def sync_all_message {α : Type} (pages : List PageOutcome) (sig : Sig α) :
    Option (Except RQError (List Message) × Sig α) :=
  (syncAllLoop pages [] sig).map (fun r => (.ok r.1, r.2))

/-! ### Long / forward message upload -/

/-- The decoded upload-ticket response `MultiMsgApplyUpRsp`: the fields
read by `upload_msgs`. -/
structure MultiMsgApplyUpRsp where
  msg_resid : String
  msg_ukey : Bytes
  msg_sig : Bytes
  uint32_up_ip : List Int
  uint32_up_port : List Int
deriving DecidableEq, Repr

/-- One network interaction recorded by the `upload_msgs` transcript:
the apply-up ticket request (a `send_and_wait` on the main transport) or
one highway chunked-transfer attempt against a candidate endpoint. -/
inductive UploadCall where
  | applyUp
  | highway (ip : Int) (port : Int)
deriving DecidableEq, Repr

/-- The endpoint loop of `upload_msgs` (lines 333-351): try each
candidate address in order; return the resource id on the first success,
move on after a failure, and fail with a generic error when every
candidate failed.  `highwayOk addr` is the outcome of
`highway_upload_bdh` at that endpoint. -/
def uploadTryAddrs (resid : String) (highwayOk : Int × Int → Bool) :
    List (Int × Int) → Except RQError String × List UploadCall
  | [] => (.error (.Other "failed to upload long message"), [])
  | addr :: rest =>
    if highwayOk addr then (.ok resid, [.highway addr.1 addr.2])
    else
      let r := uploadTryAddrs resid highwayOk rest
      (r.1, .highway addr.1 addr.2 :: r.2)

/-- `upload_msgs` (lines 304-352): serialize (a pure engine call), request
the upload ticket over the network, then check the highway session key,
zip the candidate endpoints, and run the endpoint loop.  `applyUp` is the
combined outcome of the `multi_msg_apply_up` send-and-decode;
`sessionKey` is the current highway session key; the second component of
the result is the transcript of network calls in order. -/
def upload_msgs (sessionKey : Bytes) (applyUp : Except RQError MultiMsgApplyUpRsp)
    (highwayOk : Int × Int → Bool) : Except RQError String × List UploadCall :=
  match applyUp with
  | .error e => (.error e, [.applyUp])
  | .ok rsp =>
    if sessionKey = [] then
      (.error (.EmptyField "highway_session_key is empty"), [.applyUp])
    else
      let addrs := rsp.uint32_up_ip.zip rsp.uint32_up_port
      let r := uploadTryAddrs rsp.msg_resid highwayOk addrs
      (r.1, .applyUp :: r.2)

/-! ## Spec-side notions used by the theorems -/

/-- The messages carried by a page outcome (empty when the page failed). -/
def pageMsgs (p : PageOutcome) : List Message :=
  match p.sync with
  | none => []
  | some r => r.msgs

/-- Every message of the page (if fetched) carries a head, so the
acknowledgment construction cannot panic on it. -/
def headsOk (p : PageOutcome) : Bool :=
  match p.sync with
  | none => true
  | some r => r.msgs.all (fun m => m.head.isSome)

/-- A fully successful, non-final page: the fetch succeeded, every message
carries a head, the acknowledgment succeeded, and the returned flag is
not the stop flag, so the loop keeps going afterwards. -/
def goodPage (p : PageOutcome) : Bool :=
  p.deleteOk &&
    match p.sync with
    | none => false
    | some r => r.msgs.all (fun m => m.head.isSome) && !(r.sync_flag == SYNC_STOP)

/-- The full-update cursor shape as the spec words it: both cursors take
the page's cookie when it is present. -/
def shapeFull {α : Type} (sc pc : Option Bytes) (sig : Sig α) : Sig α :=
  { sig with
      sync_cookie := sc.getD sig.sync_cookie
      pub_account_cookie := pc.getD sig.pub_account_cookie }

/-- The sync-cursor-only update shape as the spec words it. -/
def shapeSyncOnly {α : Type} (sc : Option Bytes) (sig : Sig α) : Sig α :=
  { sig with sync_cookie := sc.getD sig.sync_cookie }

/-- The public-account-cursor-only update shape as the spec words it. -/
def shapePubOnly {α : Type} (pc : Option Bytes) (sig : Sig α) : Sig α :=
  { sig with pub_account_cookie := pc.getD sig.pub_account_cookie }

/-- `pat` occurs in `s` at index `j`. -/
def occursAt (pat s : List Char) (j : Nat) : Prop :=
  pat <+: s.drop j

instance (pat s : List Char) (j : Nat) : Decidable (occursAt pat s j) :=
  inferInstanceAs (Decidable (pat <+: s.drop j))

/-! ## Helper lemmas -/

theorem string_eq_empty_iff {w : String} : w = "" ↔ w.data.length = 0 := by
  constructor
  · intro h; subst h; rfl
  · intro h
    apply String.ext
    exact List.length_eq_zero.mp h

theorem buildDeleteItems_isSome {msgs : List Message}
    (h : ∀ m ∈ msgs, m.head.isSome = true) : (buildDeleteItems msgs).isSome = true := by
  induction msgs with
  | nil => rfl
  | cons m t ih =>
      obtain ⟨hd, hhd⟩ := Option.isSome_iff_exists.mp (h m (by simp))
      have ht := ih (fun x hx => h x (by simp [hx]))
      obtain ⟨items, hitems⟩ := Option.isSome_iff_exists.mp ht
      simp [buildDeleteItems, hhd, hitems]

/-- After consuming a prefix of fully successful non-final pages, the sync
loop continues on the remaining pages with the prefix's messages appended
to the accumulator (and some evolved signature state). -/
theorem syncAllLoop_append_good {α : Type} (good : List PageOutcome)
    (tail : List PageOutcome) (hgood : ∀ q ∈ good, goodPage q = true) :
    ∀ (acc : List Message) (sig : Sig α), ∃ sigf : Sig α,
      syncAllLoop (good ++ tail) acc sig =
        syncAllLoop tail (acc ++ (good.map pageMsgs).flatten) sigf := by
  induction good with
  | nil =>
      intro acc sig
      exact ⟨sig, by simp⟩
  | cons q rest ih =>
      intro acc sig
      have hq := hgood q (by simp)
      unfold goodPage at hq
      cases hsync : q.sync with
      | none => rw [hsync] at hq; simp at hq
      | some r =>
          rw [hsync] at hq
          simp only [Bool.and_eq_true, Bool.not_eq_true', beq_eq_false_iff_ne,
            List.all_eq_true] at hq
          obtain ⟨hdel, hheads, hflag⟩ := hq
          have hhead2 : ∀ m ∈ r.msgs, m.head.isSome = true := fun m hm => hheads m hm
          obtain ⟨items, hitems⟩ :=
            Option.isSome_iff_exists.mp (buildDeleteItems_isSome hhead2)
          obtain ⟨sigf, hrec⟩ := ih (fun x hx => hgood x (by simp [hx]))
            (acc ++ r.msgs)
            (updateCursor r.msg_rsp_type r.sync_cookie r.pub_account_cookie sig)
          refine ⟨sigf, ?_⟩
          simp only [List.cons_append, syncAllLoop, hsync, hitems, hdel, if_true,
            if_neg hflag, List.map_cons, List.flatten_cons, pageMsgs, List.append_eq,
            ← List.append_assoc, hrec]

theorem mem_matchIdxs {pat s : List Char} {j : Nat} :
    j ∈ matchIdxs pat s ↔ j ≤ s.length ∧ occursAt pat s j := by
  simp [matchIdxs, List.mem_filter, List.mem_range, Nat.lt_succ_iff, occursAt]

theorem pairwise_matchIdxs (pat s : List Char) :
    (matchIdxs pat s).Pairwise (· < ·) :=
  List.Pairwise.sublist (List.filter_sublist _) (List.pairwise_lt_range _)

theorem matchIdxs_eq_nil {pat s : List Char}
    (h : ∀ k ≤ s.length, ¬ occursAt pat s k) : matchIdxs pat s = [] := by
  apply List.filter_eq_nil_iff.mpr
  intro a ha
  have hle : a ≤ s.length := Nat.lt_succ_iff.mp (List.mem_range.mp ha)
  simpa [occursAt] using h a hle

theorem head?_of_sorted_min {l : List Nat} {j : Nat} (hp : l.Pairwise (· < ·))
    (hmem : j ∈ l) (hmin : ∀ k ∈ l, j ≤ k) : l.head? = some j := by
  cases l with
  | nil => cases hmem
  | cons a t =>
      have haj : j ≤ a := hmin a (by simp)
      rcases List.mem_cons.mp hmem with h | h
      · simp [h]
      · have : a < j := List.rel_of_pairwise_cons hp h
        exact absurd haj (by omega)

theorem getLast?_of_sorted_max {l : List Nat} {j : Nat} (hp : l.Pairwise (· < ·))
    (hmem : j ∈ l) (hmax : ∀ k ∈ l, k ≤ j) : l.getLast? = some j := by
  induction l with
  | nil => cases hmem
  | cons a t ih =>
      cases t with
      | nil =>
          rcases List.mem_cons.mp hmem with h | h
          · simp [h]
          · cases h
      | cons b t2 =>
          rw [List.getLast?_cons_cons]
          have hj : j ∈ b :: t2 := by
            rcases List.mem_cons.mp hmem with h | h
            · exfalso
              have hab : a < b := List.rel_of_pairwise_cons hp (by simp)
              have hbj : b ≤ j := hmax b (by simp)
              omega
            · exact h
          exact ih hp.of_cons hj (fun k hk => hmax k (List.mem_cons_of_mem _ hk))

theorem occursAt_decomp {pat s : List Char} {j : Nat} (h : occursAt pat s j) :
    s = s.take j ++ pat ++ s.drop (j + pat.length) := by
  obtain ⟨t, ht⟩ := h
  have hdrop : s.drop j = pat ++ t := ht.symm
  have ht2 : s.drop (j + pat.length) = t := by
    have hc := congrArg (List.drop pat.length) hdrop
    rw [List.drop_drop] at hc
    simpa using hc
  calc s = s.take j ++ s.drop j := (List.take_append_drop j s).symm
    _ = s.take j ++ (pat ++ t) := by rw [hdrop]
    _ = s.take j ++ pat ++ s.drop (j + pat.length) := by
        rw [ht2, List.append_assoc]

theorem rsplitOnce_eq_some {pat s : List Char} {j : Nat}
    (hj : j ≤ s.length) (hocc : occursAt pat s j)
    (hmax : ∀ k ≤ s.length, occursAt pat s k → k ≤ j) :
    rsplitOnce pat s = some (s.take j, s.drop (j + pat.length)) := by
  have hmem : j ∈ matchIdxs pat s := mem_matchIdxs.mpr ⟨hj, hocc⟩
  have hlast : (matchIdxs pat s).getLast? = some j :=
    getLast?_of_sorted_max (pairwise_matchIdxs pat s) hmem
      (fun k hk => hmax k (mem_matchIdxs.mp hk).1 (mem_matchIdxs.mp hk).2)
  simp [rsplitOnce, hlast]

theorem splitOnce_eq_some {pat s : List Char} {k : Nat}
    (hk : k ≤ s.length) (hocc : occursAt pat s k)
    (hmin : ∀ k2 ≤ s.length, occursAt pat s k2 → k ≤ k2) :
    splitOnce pat s = some (s.take k, s.drop (k + pat.length)) := by
  have hmem : k ∈ matchIdxs pat s := mem_matchIdxs.mpr ⟨hk, hocc⟩
  have hhead : (matchIdxs pat s).head? = some k :=
    head?_of_sorted_min (pairwise_matchIdxs pat s) hmem
      (fun k2 hk2 => hmin k2 (mem_matchIdxs.mp hk2).1 (mem_matchIdxs.mp hk2).2)
  cases hl : matchIdxs pat s with
  | nil => rw [hl] at hhead; cases hhead
  | cons a t =>
      rw [hl] at hhead
      have ha : a = k := by simpa using hhead
      subst ha
      simp [splitOnce, hl]

/-! ## Claim theorems -/

/-- Claim C1 (counterexample): with an empty highway session key and a
successful upload-ticket request, `upload_msgs` does return the
missing-field error, but the transcript records the upload-ticket network
request, so a spy transport records one call, not zero. -/
theorem upload_msgs_counterexample :
    upload_msgs [] (.ok ⟨"resid0", [], [], [1], [80]⟩) (fun _ => true) =
      (.error (.EmptyField "highway_session_key is empty"), [.applyUp]) ∧
    ([UploadCall.applyUp] : List UploadCall) ≠ [] := by
  exact ⟨rfl, by simp⟩

/-- Claim C1 (amended): when the highway session key is empty,
`upload_msgs` returns the missing-field error provided the upload-ticket
request succeeded (and propagates the ticket-request error otherwise);
in either case the transcript is exactly the single upload-ticket call,
so no highway transfer is ever attempted. -/
theorem upload_msgs_empty_key (applyUp : Except RQError MultiMsgApplyUpRsp)
    (highwayOk : Int × Int → Bool) :
    (∀ rsp, applyUp = .ok rsp →
      upload_msgs [] applyUp highwayOk =
        (.error (.EmptyField "highway_session_key is empty"), [.applyUp])) ∧
    (∀ e, applyUp = .error e →
      upload_msgs [] applyUp highwayOk = (.error e, [.applyUp])) ∧
    ∀ c ∈ (upload_msgs [] applyUp highwayOk).2, c = UploadCall.applyUp := by
  refine ⟨?_, ?_, ?_⟩
  · intro rsp h; subst h; rfl
  · intro e h; subst h; rfl
  · intro c hc
    cases applyUp with
    | error e => simpa [upload_msgs] using hc
    | ok rsp => simpa [upload_msgs] using hc

/-- Claim C1 (witness for the amended theorem). -/
theorem upload_msgs_empty_key_witness :
    upload_msgs [] (.ok ⟨"resid1", [2], [3], [4, 5], [80, 81]⟩) (fun _ => true) =
      (.error (.EmptyField "highway_session_key is empty"), [.applyUp]) :=
  (upload_msgs_empty_key (.ok ⟨"resid1", [2], [3], [4, 5], [80, 81]⟩)
    (fun _ => true)).1 _ rfl

/-- Claim C4 (counterexample): for a page whose response-kind tag is 3
and which carries both cookies, the code leaves both cursors unchanged,
which is none of the three claimed shapes — each of those would write at
least one of the present cookies. -/
theorem updateCursor_counterexample :
    updateCursor 3 (some [1]) (some [2]) (⟨[0], [0], 5⟩ : Sig Nat) = ⟨[0], [0], 5⟩ ∧
    shapeFull (some [1]) (some [2]) (⟨[0], [0], 5⟩ : Sig Nat) ≠ ⟨[0], [0], 5⟩ ∧
    shapeSyncOnly (some [1]) (⟨[0], [0], 5⟩ : Sig Nat) ≠ ⟨[0], [0], 5⟩ ∧
    shapePubOnly (some [2]) (⟨[0], [0], 5⟩ : Sig Nat) ≠ ⟨[0], [0], 5⟩ := by
  refine ⟨rfl, ?_, ?_, ?_⟩ <;> decide

/-- Claim C4 (amended): cursor mutation is determined by the page's
response-kind tag and exactly one of four tag-selected shapes applies:
tag 0 is the full update, tag 1 the sync-cursor-only update (the
public-account cursor is unchanged), tag 2 the public-account-cursor-only
update (the sync cursor is unchanged), and any other tag leaves the
whole state unchanged; no other signature-state field is ever modified. -/
theorem updateCursor_shape_by_tag {α : Type} (rspType : Int)
    (sc pc : Option Bytes) (sig : Sig α) :
    (rspType = 0 → updateCursor rspType sc pc sig = shapeFull sc pc sig) ∧
    (rspType = 1 → updateCursor rspType sc pc sig = shapeSyncOnly sc sig ∧
      (updateCursor rspType sc pc sig).pub_account_cookie = sig.pub_account_cookie) ∧
    (rspType = 2 → updateCursor rspType sc pc sig = shapePubOnly pc sig ∧
      (updateCursor rspType sc pc sig).sync_cookie = sig.sync_cookie) ∧
    (rspType ≠ 0 → rspType ≠ 1 → rspType ≠ 2 →
      updateCursor rspType sc pc sig = sig) ∧
    (updateCursor rspType sc pc sig).other = sig.other := by
  refine ⟨?_, ?_, ?_, ?_, ?_⟩
  · intro h; subst h; rfl
  · intro h; subst h; exact ⟨rfl, rfl⟩
  · intro h; subst h; exact ⟨rfl, rfl⟩
  · intro h0 h1 h2; simp [updateCursor, h0, h1, h2]
  · unfold updateCursor
    split
    · rfl
    · split
      · rfl
      · split
        · rfl
        · rfl

/-- Claim C4 (witness for the amended theorem). -/
theorem updateCursor_shape_by_tag_witness :
    updateCursor 1 (some [9]) (some [8]) (⟨[0], [7], 3⟩ : Sig Nat) =
        shapeSyncOnly (some [9]) (⟨[0], [7], 3⟩ : Sig Nat) ∧
      (updateCursor 1 (some [9]) (some [8]) (⟨[0], [7], 3⟩ : Sig Nat)).pub_account_cookie =
        (⟨[0], [7], 3⟩ : Sig Nat).pub_account_cookie :=
  (updateCursor_shape_by_tag 1 (some [9]) (some [8]) (⟨[0], [7], 3⟩ : Sig Nat)).2.1 rfl

/-- Claim C6: market-face classification is decided by exact caption
match — the two dice captions give the dice variant, the finger-guessing
caption gives the finger-guessing variant, and any other caption the
generic market-face variant (the caption is preserved in each wrapper). -/
theorem classify_marketFace (decode3 : Bytes → Option MsgElemInfoServtype3)
    (decode33 : Bytes → Option MsgElemInfoServtype33) (m : MarketFaceElem) :
    (m.face_name = "[骰子]" ∨ m.face_name = "[随机骰子]" →
      classify decode3 decode33 (.MarketFace m) = .Dice (diceFrom (marketFaceFrom m))) ∧
    (m.face_name = "[猜拳]" →
      classify decode3 decode33 (.MarketFace m) =
        .FingerGuessing (fingerGuessingFrom (marketFaceFrom m))) ∧
    (m.face_name ≠ "[骰子]" → m.face_name ≠ "[随机骰子]" → m.face_name ≠ "[猜拳]" →
      classify decode3 decode33 (.MarketFace m) = .MarketFace (marketFaceFrom m)) := by
  refine ⟨?_, ?_, ?_⟩
  · intro h
    simp [classify, marketFaceFrom, diceFrom, h]
  · intro h
    have h1 : ¬(m.face_name = "[骰子]" ∨ m.face_name = "[随机骰子]") := by
      rw [h]; decide
    simp [classify, marketFaceFrom, fingerGuessingFrom, h, h1]
  · intro h1 h2 h3
    simp [classify, marketFaceFrom, h1, h2, h3]

/-- Claim C6 (witness). -/
theorem classify_marketFace_witness :
    classify (fun _ => none) (fun _ => none) (.MarketFace ⟨"[骰子]"⟩) =
        .Dice (diceFrom (marketFaceFrom ⟨"[骰子]"⟩)) ∧
      classify (fun _ => none) (fun _ => none) (.MarketFace ⟨"[随机骰子]"⟩) =
        .Dice (diceFrom (marketFaceFrom ⟨"[随机骰子]"⟩)) ∧
      classify (fun _ => none) (fun _ => none) (.MarketFace ⟨"[猜拳]"⟩) =
        .FingerGuessing (fingerGuessingFrom (marketFaceFrom ⟨"[猜拳]"⟩)) ∧
      classify (fun _ => none) (fun _ => none) (.MarketFace ⟨"[可爱]"⟩) =
        .MarketFace (marketFaceFrom ⟨"[可爱]"⟩) :=
  ⟨(classify_marketFace (fun _ => none) (fun _ => none) ⟨"[骰子]"⟩).1 (Or.inl rfl),
   (classify_marketFace (fun _ => none) (fun _ => none) ⟨"[随机骰子]"⟩).1 (Or.inr rfl),
   (classify_marketFace (fun _ => none) (fun _ => none) ⟨"[猜拳]"⟩).2.1 rfl,
   (classify_marketFace (fun _ => none) (fun _ => none) ⟨"[可爱]"⟩).2.2
     (by decide) (by decide) (by decide)⟩

/-- Claim C7: `update_online_status` validates the custom-status wording
by code-point count — a wording of 0 or of 5 or more code points fails
with the validation error before any network call (0 calls issued), a
wording of 1 to 4 code points passes validation and the one network call
is issued with its outcome returned, and a status without custom status
is never rejected by this check. -/
theorem update_online_status_validation (status : Status) (net : Except RQError Unit) :
    (∀ cs, status.custom_status = some cs →
      cs.wording.data.length = 0 ∨ 5 ≤ cs.wording.data.length →
      update_online_status status net = (.error (.Other "invalid wording length"), 0)) ∧
    (∀ cs, status.custom_status = some cs →
      1 ≤ cs.wording.data.length → cs.wording.data.length ≤ 4 →
      update_online_status status net = (net, 1)) ∧
    (status.custom_status = none → update_online_status status net = (net, 1)) := by
  refine ⟨?_, ?_, ?_⟩
  · intro cs hcs hlen
    have hbad : cs.wording = "" ∨ cs.wording.data.length > 4 := by
      rcases hlen with h0 | h5
      · exact Or.inl (string_eq_empty_iff.mpr h0)
      · exact Or.inr (by omega)
    simp only [update_online_status, hcs]
    rw [if_pos hbad]
  · intro cs hcs hlo hhi
    have hne : ¬(cs.wording = "" ∨ cs.wording.data.length > 4) := by
      rintro (h | h)
      · rw [string_eq_empty_iff] at h; omega
      · omega
    simp only [update_online_status, hcs]
    rw [if_neg hne]
    cases net with
    | error e => rfl
    | ok u => rfl
  · intro h
    simp only [update_online_status, h]
    cases net with
    | error e => rfl
    | ok u => rfl

/-- Claim C7 (witness, with multi-byte wordings: four CJK code points
pass, five fail, the empty wording fails, and no custom status passes). -/
theorem update_online_status_validation_witness :
    update_online_status ⟨11, 0, some ⟨"一二三四"⟩⟩ (.ok ()) = (.ok (), 1) ∧
      update_online_status ⟨11, 0, some ⟨"一二三四五"⟩⟩ (.ok ()) =
        (.error (.Other "invalid wording length"), 0) ∧
      update_online_status ⟨11, 0, some ⟨""⟩⟩ (.ok ()) =
        (.error (.Other "invalid wording length"), 0) ∧
      update_online_status ⟨11, 0, none⟩ (.ok ()) = (.ok (), 1) :=
  ⟨(update_online_status_validation ⟨11, 0, some ⟨"一二三四"⟩⟩ (.ok ())).2.1
      ⟨"一二三四"⟩ rfl (by decide) (by decide),
   (update_online_status_validation ⟨11, 0, some ⟨"一二三四五"⟩⟩ (.ok ())).1
      ⟨"一二三四五"⟩ rfl (by decide),
   (update_online_status_validation ⟨11, 0, some ⟨""⟩⟩ (.ok ())).1
      ⟨""⟩ rfl (by decide),
   (update_online_status_validation ⟨11, 0, none⟩ (.ok ())).2.2 rfl⟩

/-- Claim C8: `translate` fails with the protocol-mismatch error exactly
when the decoded translation count differs from the input count, returns
the decoded translations unchanged (in response order) when the counts
agree, and propagates a transport or decode error. -/
theorem translate_count (src_text_list : List String) :
    (∀ translations : List String, translations.length ≠ src_text_list.length →
      translate src_text_list (.ok translations) =
        .error (.Other "translate length error")) ∧
    (∀ translations : List String, translations.length = src_text_list.length →
      translate src_text_list (.ok translations) = .ok translations) ∧
    (∀ e, translate src_text_list (.error e) = .error e) := by
  refine ⟨?_, ?_, ?_⟩
  · intro translations h; simp [translate, h]
  · intro translations h; simp [translate, h]
  · intro e; rfl

/-- Claim C8 (witness: three inputs against two decoded translations fail,
three against three succeed in response order). -/
theorem translate_count_witness :
    translate ["a", "b", "c"] (.ok ["x", "y"]) =
        .error (.Other "translate length error") ∧
      translate ["a", "b", "c"] (.ok ["z", "y", "x"]) = .ok ["z", "y", "x"] :=
  ⟨(translate_count ["a", "b", "c"]).1 ["x", "y"] (by decide),
   (translate_count ["a", "b", "c"]).2.1 ["z", "y", "x"] (by decide)⟩

/-- Claim C10: the acknowledgment construction of `sync_all_message`
unwraps each message's head, so a page containing a message with an
absent head makes the call panic (modelled as `none`) instead of
returning a partial result, while the same page with the head present is
returned normally. -/
theorem sync_all_message_headless_panic :
    sync_all_message (α := Nat)
        [⟨some ⟨[⟨none, [1]⟩], 0, none, none, SYNC_STOP⟩, true⟩] ⟨[], [], 0⟩ = none ∧
      sync_all_message (α := Nat)
        [⟨some ⟨[⟨some ⟨none, none, none, none, none⟩, [1]⟩], 0, none, none,
          SYNC_STOP⟩, true⟩] ⟨[], [], 0⟩ =
      some (.ok [⟨some ⟨none, none, none, none, none⟩, [1]⟩], ⟨[], [], 0⟩) := by
  exact ⟨rfl, rfl⟩

/-- Claim C2 (counterexample): the quantification over every sequence of
page outcomes is too strong — a successfully fetched page carrying a
message with an absent head makes the call panic during acknowledgment
construction, so when the next page then fails, the call does not return
the accumulated messages as a success (it does not return at all). -/
theorem sync_all_message_counterexample :
    sync_all_message (α := Nat)
      [⟨some ⟨[⟨none, [2]⟩], 0, none, none, 1⟩, true⟩, ⟨none, true⟩]
      ⟨[], [], 0⟩ = none := by
  rfl

/-- Claim C2 (amended): provided every message of every successfully
fetched page carries a head, a failing page request stops the loop and
`sync_all_message` returns everything accumulated so far as a successful
partial result — the messages of the preceding fully successful pages,
concatenated in order — and the pages after the failed one are never
consulted (no retry, no abort). -/
theorem sync_all_message_partial_on_failure {α : Type} (good : List PageOutcome)
    (p : PageOutcome) (rest : List PageOutcome) (sig : Sig α)
    (hgood : ∀ q ∈ good, goodPage q = true) (hfail : p.sync = none) :
    ∃ sigf : Sig α, sync_all_message (good ++ p :: rest) sig =
      some (.ok ((good.map pageMsgs).flatten), sigf) := by
  obtain ⟨sigf, hloop⟩ := syncAllLoop_append_good good (p :: rest) hgood [] sig
  refine ⟨sigf, ?_⟩
  unfold sync_all_message
  rw [hloop]
  simp [syncAllLoop, hfail]

/-- Claim C2 (witness for the amended theorem): one fully successful page,
then a failed page, then a further page that is never reached; the result
is the first page's messages as a success. -/
theorem sync_all_message_partial_on_failure_witness :
    ∃ sigf : Sig Nat,
      sync_all_message
        ([⟨some ⟨[⟨some ⟨some 10, none, none, none, none⟩, [3]⟩], 1, some [9], none, 1⟩,
            true⟩] ++ ⟨none, true⟩ :: [⟨some ⟨[], 0, none, none, SYNC_STOP⟩, true⟩])
        ⟨[], [], 0⟩ =
      some (.ok (([⟨some ⟨[⟨some ⟨some 10, none, none, none, none⟩, [3]⟩], 1, some [9],
          none, 1⟩, true⟩].map pageMsgs).flatten), sigf) :=
  sync_all_message_partial_on_failure _ _ _ _ (by decide) rfl

/-- Claim C3 (counterexample): the per-page guarantee fails when a fetched
page holds a message with an absent head — the acknowledgment
construction panics before the delete-message call, so with an empty
prefix of successful pages the call returns no result at all rather than
the empty concatenation. -/
theorem sync_all_message_ack_counterexample :
    sync_all_message (α := Nat)
      [⟨some ⟨[⟨none, [4]⟩], 0, none, none, SYNC_STOP⟩, false⟩]
      ⟨[], [], 0⟩ = none := by
  rfl

/-- Claim C3 (amended): provided every message of the fetched pages
carries a head, a page whose delete-message acknowledgment fails stops
the loop, and the result is exactly the concatenation of the messages of
the preceding pages — the pages whose acknowledgment succeeded — with the
unacknowledged page's messages excluded. -/
theorem sync_all_message_excludes_unacked_page {α : Type} (good : List PageOutcome)
    (p : PageOutcome) (rest : List PageOutcome) (sig : Sig α) (r : MessageSyncResponse)
    (hgood : ∀ q ∈ good, goodPage q = true) (hp : p.sync = some r)
    (hheads : ∀ m ∈ r.msgs, m.head.isSome = true) (hack : p.deleteOk = false) :
    ∃ sigf : Sig α, sync_all_message (good ++ p :: rest) sig =
      some (.ok ((good.map pageMsgs).flatten), sigf) := by
  obtain ⟨sigf, hloop⟩ := syncAllLoop_append_good good (p :: rest) hgood [] sig
  refine ⟨sigf, ?_⟩
  unfold sync_all_message
  rw [hloop]
  obtain ⟨items, hitems⟩ := Option.isSome_iff_exists.mp (buildDeleteItems_isSome hheads)
  simp [syncAllLoop, hp, hitems, hack]

/-- Claim C3 (witness for the amended theorem): a successful page followed
by a page whose acknowledgment fails; the second page's message is
excluded from the result. -/
theorem sync_all_message_excludes_unacked_page_witness :
    ∃ sigf : Sig Nat,
      sync_all_message
        ([⟨some ⟨[⟨some ⟨some 20, none, none, none, none⟩, [5]⟩], 2, none, some [8], 1⟩,
            true⟩] ++
          ⟨some ⟨[⟨some ⟨some 21, none, none, none, none⟩, [6]⟩], 0, none, none, 1⟩,
            false⟩ :: [])
        ⟨[], [], 0⟩ =
      some (.ok (([⟨some ⟨[⟨some ⟨some 20, none, none, none, none⟩, [5]⟩], 2, none,
          some [8], 1⟩, true⟩].map pageMsgs).flatten), sigf) :=
  sync_all_message_excludes_unacked_page _ _ _ _
    ⟨[⟨some ⟨some 21, none, none, none, none⟩, [6]⟩], 0, none, none, 1⟩
    (by decide) rfl (by decide) rfl

/-- Claim C5: on a common element with service-type 3 the classifier
decodes the nested flash-image descriptor — a group-picture
sub-descriptor yields the flash variant wrapping the group image, else a
friend-picture sub-descriptor yields the flash variant wrapping the
friend image, and decode failure or absence of both sub-descriptors falls
back to the passthrough variant holding the original element; any
service-type other than 3 and 33 and every unrecognized element kind also
pass through unchanged. -/
theorem classify_common_servtype3 (decode3 : Bytes → Option MsgElemInfoServtype3)
    (decode33 : Bytes → Option MsgElemInfoServtype33) (c : CommonElem) :
    (∀ info pic, c.service_type.getD 0 = 3 →
      decode3 (c.pb_elem.getD []) = some info → info.flash_troop_pic = some pic →
      classify decode3 decode33 (.CommonElem c) =
        .FlashImage (.group (groupImageFromTroopPic pic))) ∧
    (∀ info pic, c.service_type.getD 0 = 3 →
      decode3 (c.pb_elem.getD []) = some info → info.flash_troop_pic = none →
      info.flash_c2c_pic = some pic →
      classify decode3 decode33 (.CommonElem c) =
        .FlashImage (.friend (friendImageFromC2cPic pic))) ∧
    (∀ info, c.service_type.getD 0 = 3 →
      decode3 (c.pb_elem.getD []) = some info → info.flash_troop_pic = none →
      info.flash_c2c_pic = none →
      classify decode3 decode33 (.CommonElem c) = .Other (.CommonElem c)) ∧
    (c.service_type.getD 0 = 3 → decode3 (c.pb_elem.getD []) = none →
      classify decode3 decode33 (.CommonElem c) = .Other (.CommonElem c)) ∧
    (c.service_type.getD 0 ≠ 3 → c.service_type.getD 0 ≠ 33 →
      classify decode3 decode33 (.CommonElem c) = .Other (.CommonElem c)) ∧
    (∀ tag payload, classify decode3 decode33 (.OtherKind tag payload) =
      .Other (.OtherKind tag payload)) := by
  refine ⟨?_, ?_, ?_, ?_, ?_, ?_⟩
  · intro info pic hst hdec htroop
    simp [classify, hst, hdec, htroop]
  · intro info pic hst hdec htroop hc2c
    simp [classify, hst, hdec, htroop, hc2c]
  · intro info hst hdec htroop hc2c
    simp [classify, hst, hdec, htroop, hc2c]
  · intro hst hdec
    simp [classify, hst, hdec]
  · intro h3 h33
    simp [classify, h3, h33]
  · intro tag payload
    rfl

/-- Claim C5 (witness): concrete decoders exercising the group-picture
case, the friend-picture case, the no-descriptor case, the decode-failure
case, an unrelated service-type, and an unrecognized element kind. -/
theorem classify_common_servtype3_witness :
    classify (fun _ => some ⟨some [7], none⟩) (fun _ => none)
        (.CommonElem ⟨some 3, some [1]⟩) =
      .FlashImage (.group (groupImageFromTroopPic [7])) ∧
    classify (fun _ => some ⟨none, some [6]⟩) (fun _ => none)
        (.CommonElem ⟨some 3, some [1]⟩) =
      .FlashImage (.friend (friendImageFromC2cPic [6])) ∧
    classify (fun _ => some ⟨none, none⟩) (fun _ => none)
        (.CommonElem ⟨some 3, some [1]⟩) = .Other (.CommonElem ⟨some 3, some [1]⟩) ∧
    classify (fun _ => none) (fun _ => none) (.CommonElem ⟨some 3, some [1]⟩) =
      .Other (.CommonElem ⟨some 3, some [1]⟩) ∧
    classify (fun _ => none) (fun _ => none) (.CommonElem ⟨some 5, some [1]⟩) =
      .Other (.CommonElem ⟨some 5, some [1]⟩) ∧
    classify (fun _ => none) (fun _ => none) (.OtherKind 4 [9]) =
      .Other (.OtherKind 4 [9]) :=
  ⟨(classify_common_servtype3 (fun _ => some ⟨some [7], none⟩) (fun _ => none)
      ⟨some 3, some [1]⟩).1 ⟨some [7], none⟩ [7] rfl rfl rfl,
   (classify_common_servtype3 (fun _ => some ⟨none, some [6]⟩) (fun _ => none)
      ⟨some 3, some [1]⟩).2.1 ⟨none, some [6]⟩ [6] rfl rfl rfl rfl,
   (classify_common_servtype3 (fun _ => some ⟨none, none⟩) (fun _ => none)
      ⟨some 3, some [1]⟩).2.2.1 ⟨none, none⟩ rfl rfl rfl rfl,
   (classify_common_servtype3 (fun _ => none) (fun _ => none)
      ⟨some 3, some [1]⟩).2.2.2.1 rfl rfl,
   (classify_common_servtype3 (fun _ => none) (fun _ => none)
      ⟨some 5, some [1]⟩).2.2.2.2.1 (by decide) (by decide),
   (classify_common_servtype3 (fun _ => none) (fun _ => none)
      ⟨some 5, some [1]⟩).2.2.2.2.2 4 [9]⟩

/-- Claim C9 (counterexample): when both markers are found the helper does
not emit exactly `name='value'` — it emits a leading space before it. -/
theorem fmt_extract_attr_counterexample :
    fmt_extract_attr "<u>" "url" "<" ">" = " url='u'" ∧
    (" url='u'" : String) ≠ "url='u'" := by
  exact ⟨rfl, by decide⟩

/-- Claim C9 (amended): given a text blob and begin/end markers, the
helper locates the last occurrence of the begin marker and the end marker
immediately following it; if both are found it emits a single space
followed by `name='value'`, where value is the text between them (the
blob decomposes accordingly); if either marker is absent it emits nothing
and succeeds. -/
theorem fmt_extract_attr_spec (i name begMark endMark : String) :
    ((∀ j ≤ i.data.length, ¬ occursAt begMark.data i.data j) →
      fmt_extract_attr i name begMark endMark = "") ∧
    (∀ j ≤ i.data.length, occursAt begMark.data i.data j →
      (∀ k ≤ i.data.length, occursAt begMark.data i.data k → k ≤ j) →
      (∀ k ≤ (i.data.drop (j + begMark.data.length)).length,
        ¬ occursAt endMark.data (i.data.drop (j + begMark.data.length)) k) →
      fmt_extract_attr i name begMark endMark = "") ∧
    (∀ j k, j ≤ i.data.length → occursAt begMark.data i.data j →
      (∀ j2 ≤ i.data.length, occursAt begMark.data i.data j2 → j2 ≤ j) →
      k ≤ (i.data.drop (j + begMark.data.length)).length →
      occursAt endMark.data (i.data.drop (j + begMark.data.length)) k →
      (∀ k2 ≤ (i.data.drop (j + begMark.data.length)).length,
        occursAt endMark.data (i.data.drop (j + begMark.data.length)) k2 → k ≤ k2) →
      fmt_extract_attr i name begMark endMark =
        " " ++ name ++ "='" ++
          String.mk ((i.data.drop (j + begMark.data.length)).take k) ++ "'" ∧
      i.data = i.data.take j ++ begMark.data ++
        ((i.data.drop (j + begMark.data.length)).take k ++ endMark.data ++
          (i.data.drop (j + begMark.data.length)).drop (k + endMark.data.length))) := by
  refine ⟨?_, ?_, ?_⟩
  · intro h
    simp [fmt_extract_attr, rsplitOnce, matchIdxs_eq_nil h]
  · intro j hj hocc hmax hnone
    have hr := rsplitOnce_eq_some hj hocc hmax
    simp only [fmt_extract_attr, hr, Option.some_bind, splitOnce,
      matchIdxs_eq_nil hnone, Option.map_none']
  · intro j k hj hocc hmax hk hkocc hkmin
    have hr := rsplitOnce_eq_some hj hocc hmax
    have hs := splitOnce_eq_some hk hkocc hkmin
    constructor
    · simp only [fmt_extract_attr, hr, Option.some_bind, hs, Option.map_some']
    · have h1 := occursAt_decomp hocc
      have h2 := occursAt_decomp hkocc
      calc i.data
          = i.data.take j ++ begMark.data ++ i.data.drop (j + begMark.data.length) := h1
        _ = i.data.take j ++ begMark.data ++
            ((i.data.drop (j + begMark.data.length)).take k ++ endMark.data ++
              (i.data.drop (j + begMark.data.length)).drop (k + endMark.data.length)) :=
          congrArg (fun t => i.data.take j ++ begMark.data ++ t) h2

/-- Claim C9 (witness for the amended theorem): in a blob with two begin
markers, the value is taken after the last one and the output carries the
leading space. -/
theorem fmt_extract_attr_spec_witness :
    fmt_extract_attr "x<a><b>" "k" "<" ">" = " k='b'" := by
  have h := ((fmt_extract_attr_spec "x<a><b>" "k" "<" ">").2.2 4 1 (by decide)
    (by decide) (by decide) (by decide) (by decide) (by decide)).1
  rw [h]
  decide

end Ricq
